import Mathlib

/-!
Verification of the webhook-forwarder Cloudflare Worker.

The definitions below are a shallow embedding of the worker source
(`src/index.ts`, current revision; the older revision's JSON-blob config
resolver is embedded as `parseConfigB`).  JS strings are modelled as Lean
`String` (operating on `String.data` where the JS operation is
character-based), the JS `Headers` class as an association list whose
names are normalized to lowercase, and the outcome of each outbound
`fetch` call as an oracle value `FetchOutcome` supplied per target URL
(the network and the clock are the environment, not the program).
Request-body plumbing is not modelled: no verified property mentions it.
-/

namespace WebhookForwarder

/-- A JS environment-variable value as seen by the worker: a string, or a
binding of any other runtime type (the code guards with
`typeof value === 'string'`). -/
inductive EnvVal where
  | str : String → EnvVal
  | other : EnvVal
deriving DecidableEq, Repr

/-- JSON values, as produced by `JSON.parse` (numbers collapsed to `Int`;
their precision is irrelevant to the config resolver). -/
inductive Json where
  | null : Json
  | bool : Bool → Json
  | num : Int → Json
  | str : String → Json
  | arr : List Json → Json
  | obj : List (String × Json) → Json

/-- `typeof config === 'object' && config !== null && !Array.isArray(config)`:
the parsed top level is a mapping. -/
def Json.isObj : Json → Bool
  | .obj _ => true
  | _ => false

/-- Lowercasing of a header name, character by character (JS `Headers`
normalizes names this way; header names are ASCII). -/
def lowerName (s : String) : String :=
  ⟨s.data.map Char.toLower⟩

/-- JS `Headers` construction normalizes header names to lowercase. -/
def normalizeHeaders (raw : List (String × String)) : List (String × String) :=
  raw.map (fun p => (lowerName p.1, p.2))

/-- `Headers.delete(name)`: remove every entry with the (case-insensitive)
name. -/
def headersDelete (hs : List (String × String)) (name : String) :
    List (String × String) :=
  hs.filter (fun p => !(p.1 == lowerName name))

/-- `Headers.set(name, value)`: replace any existing entry of that name with
the single new pair (names stored lowercase). -/
def headersSet (hs : List (String × String)) (name value : String) :
    List (String × String) :=
  headersDelete hs name ++ [(lowerName name, value)]

/-- `Headers.get(name)`: case-insensitive lookup, `none` for JS `null`. -/
def headersGet (hs : List (String × String)) (name : String) : Option String :=
  (hs.find? (fun p => p.1 == lowerName name)).map Prod.snd

/-- The header block of `forwardToTarget`: clone the inbound headers
(`new Headers(headers)`), delete `host` and the four `cf-*` headers, then set
`X-Forwarded-By` and `X-Original-Host` (the latter from the inbound `host`
header, `''` when absent). -/
def buildForwardHeaders (headers : List (String × String)) :
    List (String × String) :=
  let fh := normalizeHeaders headers
  let fh := headersDelete fh "host"
  let fh := headersDelete fh "cf-connecting-ip"
  let fh := headersDelete fh "cf-ray"
  let fh := headersDelete fh "cf-visitor"
  let fh := headersDelete fh "cf-ipcountry"
  let fh := headersSet fh "X-Forwarded-By" "webhook-forwarder"
  headersSet fh "X-Original-Host" ((headersGet (normalizeHeaders headers) "host").getD "")

/-- The per-target record built by `forwardToTarget` (interface
`ForwardResult`). -/
structure ForwardResult where
  target : String
  success : Bool
  status : Option Nat := none
  statusText : Option String := none
  error : Option String := none
  duration : Nat
deriving DecidableEq, Repr

/-- What the environment does with one outbound `fetch`: either a response
arrives (status code and status text), or the call throws.  A thrown JS value
carries `some message` when it is an `Error`, `none` otherwise. -/
inductive FetchOutcome where
  | response : Nat → String → FetchOutcome
  | failure : Option String → FetchOutcome
deriving DecidableEq, Repr

/-- `Response.ok`: status code in the 200–299 range. -/
def responseOk (status : Nat) : Bool :=
  200 ≤ status && status ≤ 299

/-- `forwardToTarget(target, method, headers, body)`: returns the headers
actually sent and the `ForwardResult` record.  `elapsed` is the wall-clock
duration (`Date.now() - startTime`) the environment charges to the call. -/
def forwardToTarget (target : String) (headers : List (String × String))
    (outcome : FetchOutcome) (elapsed : Nat) :
    List (String × String) × ForwardResult :=
  let sent := buildForwardHeaders headers
  match outcome with
  | .response st stx =>
      (sent, { target := target, success := responseOk st, status := some st,
               statusText := some stx, duration := elapsed })
  | .failure msg =>
      (sent, { target := target, success := false,
               error := some (msg.getD "Unknown error"), duration := elapsed })

/-- JS `String.prototype.split(',')` on the character sequence: every comma
separates two (possibly empty) pieces; the empty string yields `[""]`. -/
def splitChars : List Char → List (List Char)
  | [] => [[]]
  | c :: rest =>
      if c = ',' then [] :: splitChars rest
      else
        match splitChars rest with
        | h :: t => (c :: h) :: t
        | [] => [[c]]

/-- JS `String.prototype.trim()`: drop leading and trailing whitespace. -/
def jsTrim (s : String) : String :=
  ⟨((s.data.dropWhile Char.isWhitespace).reverse.dropWhile Char.isWhitespace).reverse⟩

/-- `value.split(',').map(url => url.trim()).filter(Boolean)`. -/
def splitTargets (value : String) : List String :=
  (((splitChars value.data).map (fun cs => (⟨cs⟩ : String))).map jsTrim).filter
    (fun s => s != "")

/-- One iteration of the `parseConfig` loop (current revision): a key bearing
the `FORWARD_` marker with a non-empty string value and a non-empty remainder
yields one entry; anything else yields none. -/
def forwardEntry (kv : String × EnvVal) : Option (String × List String) :=
  match kv with
  | (key, .str value) =>
      if "FORWARD_".data.isPrefixOf key.data && value != "" then
        let id : String := ⟨key.data.drop "FORWARD_".data.length⟩
        if id != "" then some (id, splitTargets value) else none
      else none
  | (_, .other) => none

/-- `parseConfig(env)` of the current revision: scan all env entries. -/
def parseConfigA (env : List (String × EnvVal)) : List (String × List String) :=
  env.filterMap forwardEntry

/-- `targets.filter((t): t is string => typeof t === 'string' && t.length > 0)`. -/
def sanitizeTargets (xs : List Json) : List String :=
  xs.filterMap (fun x => match x with
    | .str s => if s != "" then some s else none
    | _ => none)

/-- `parseConfig(configStr)` of the older revision (JSON-blob variant):
`none` models input `JSON.parse` throws on; a non-mapping top level throws
inside the `try` and is caught, giving `{}`; object entries whose value is an
array keep their string elements, other entries are dropped. -/
def parseConfigB (input : Option Json) : List (String × List String) :=
  match input with
  | none => []
  | some (.obj fields) =>
      fields.filterMap (fun kv => match kv.2 with
        | .arr xs => some (kv.1, sanitizeTargets xs)
        | _ => none)
  | some _ => []

/-- `target.replace(/\/$/, '')`: remove a single trailing slash if present. -/
def stripOneTrailingSlash (s : String) : String :=
  if s.data.getLast? = some '/' then ⟨s.data.dropLast⟩ else s

/-- `subPath ? target.replace(/\/$/, '') + subPath : target`. -/
def composeTargetUrl (target subPath : String) : String :=
  if subPath != "" then stripOneTrailingSlash target ++ subPath else target

/-- `.` in a JS regex (no `s` flag) matches any char except line terminators. -/
def regexDotMatches (c : Char) : Bool :=
  c != '\n' && c != '\r' && c != ' ' && c != ' '

/-- `extractIdFromPath`: match `pathname` against
`^\/webhook\/([^\/]+)(\/.*)?$`; group 1 is the identifier (one or more
non-slash chars), group 2 the optional sub-path (a slash followed by
non-line-terminator chars, to end of input). -/
def extractIdFromPath (pathname : String) : Option (String × String) :=
  let cs := pathname.data
  if "/webhook/".data.isPrefixOf cs then
    let rest := cs.drop "/webhook/".data.length
    let id := rest.takeWhile (fun c => c != '/')
    let sub := rest.dropWhile (fun c => c != '/')
    if id.isEmpty then none
    else if sub.isEmpty then some (⟨id⟩, "")
    else if (sub.drop 1).all regexDotMatches then some (⟨id⟩, ⟨sub⟩)
    else none
  else none

/-- `config[id]` on the parsed routing table. -/
def lookupTable (config : List (String × List String)) (id : String) :
    Option (List String) :=
  (config.find? (fun kv => kv.1 == id)).map Prod.snd

/-- `env.NAME` when it holds a string. -/
def envGetStr (env : List (String × EnvVal)) (name : String) : Option String :=
  match env.find? (fun kv => kv.1 == name) with
  | some (_, .str s) => some s
  | _ => none

/-- The outer status computation: 502 if all forwards failed, 207 if some
failed, 200 if all succeeded. -/
def overallStatus (successful failed : Nat) : Nat :=
  if 0 < failed && successful == 0 then 502
  else if 0 < failed then 207
  else 200

/-- The JSON body built for a dispatched request (interface
`ForwardResponse`). -/
structure ForwardResponse where
  id : String
  message : String
  totalTargets : Nat
  successful : Nat
  failed : Nat
  results : List ForwardResult
  code : Int
deriving DecidableEq, Repr

/-- Observable outcome of one call of the worker's `fetch` handler: outer
HTTP status, the `code` field of the JSON body, whether `config[id]` was
consulted, the target URLs handed to `forwardToTarget` in invocation order,
and the `ForwardResponse` body when one was built. -/
structure FetchModelResult where
  status : Nat
  code : Int
  lookedUp : Bool
  calls : List String
  forwardResp : Option ForwardResponse
deriving DecidableEq, Repr

/-- The fan-out block of the handler: forward to every target (Promise.all
preserves input order), count successes and failures by filtering, build the
`ForwardResponse` and pick the outer status. -/
def dispatchToTargets (id subPath : String) (targets : List String)
    (headers : List (String × String)) (outcome : String → FetchOutcome)
    (elapsed : String → Nat) : FetchModelResult :=
  let results := targets.map (fun t =>
    let targetUrl := composeTargetUrl t subPath
    (forwardToTarget targetUrl headers (outcome targetUrl) (elapsed targetUrl)).2)
  let successful := (results.filter (fun r => r.success)).length
  let failed := (results.filter (fun r => !r.success)).length
  let resp : ForwardResponse :=
    { id := id
      message := "Forwarded to " ++ toString targets.length ++ " targets for ID: " ++ id
      totalTargets := targets.length
      successful := successful
      failed := failed
      results := results
      code := if 0 < successful then 0 else -1 }
  { status := overallStatus successful failed
    code := resp.code
    lookedUp := true
    calls := targets.map (fun t => composeTargetUrl t subPath)
    forwardResp := some resp }

/-- The worker's `fetch` handler, branch for branch: health check, the
DEBUG-gated config view, `/webhook/:id` dispatch (400 on a regex miss, 404
when the identifier is unknown or has no targets), bare `/webhook`, and the
catch-all. -/
def fetchModel (pathname method : String) (env : List (String × EnvVal))
    (headers : List (String × String)) (outcome : String → FetchOutcome)
    (elapsed : String → Nat) : FetchModelResult :=
  if pathname == "/health" || pathname == "/" then
    { status := 200, code := 0, lookedUp := false, calls := [], forwardResp := none }
  else if pathname == "/config" && method == "GET" then
    if envGetStr env "DEBUG" != some "true" then
      { status := 404, code := -1, lookedUp := false, calls := [], forwardResp := none }
    else
      { status := 200, code := 0, lookedUp := false, calls := [], forwardResp := none }
  else if "/webhook/".data.isPrefixOf pathname.data then
    match extractIdFromPath pathname with
    | none =>
        { status := 400, code := -1, lookedUp := false, calls := [], forwardResp := none }
    | some (id, subPath) =>
        match lookupTable (parseConfigA env) id with
        | none =>
            { status := 404, code := -1, lookedUp := true, calls := [], forwardResp := none }
        | some targets =>
            if targets.isEmpty then
              { status := 404, code := -1, lookedUp := true, calls := [], forwardResp := none }
            else dispatchToTargets id subPath targets headers outcome elapsed
  else if pathname == "/webhook" then
    { status := 400, code := -1, lookedUp := false, calls := [], forwardResp := none }
  else
    { status := 404, code := -1, lookedUp := false, calls := [], forwardResp := none }

/-! ### Helper lemmas about the header-map model -/

theorem find?_filter_of_imp {α : Type} {p q : α → Bool} (l : List α)
    (h : ∀ a, p a = true → q a = true) :
    (l.filter q).find? p = l.find? p := by
  induction l with
  | nil => rfl
  | cons a l ih =>
    rw [List.filter_cons]
    by_cases hq : q a = true
    · rw [if_pos hq]
      by_cases hp : p a = true
      · rw [List.find?_cons_of_pos _ hp, List.find?_cons_of_pos _ hp]
      · rw [List.find?_cons_of_neg _ hp, List.find?_cons_of_neg _ hp, ih]
    · have hp : ¬ p a = true := fun hpa => hq (h a hpa)
      rw [if_neg hq, ih, List.find?_cons_of_neg _ hp]

theorem headersGet_delete_self (hs : List (String × String)) (name : String) :
    headersGet (headersDelete hs name) name = none := by
  unfold headersGet headersDelete
  rw [List.find?_eq_none.mpr]
  · rfl
  · intro x hx
    rcases List.mem_filter.mp hx with ⟨-, hq⟩
    simpa using hq

theorem headersGet_delete_ne (hs : List (String × String)) (name other : String)
    (h : lowerName other ≠ lowerName name) :
    headersGet (headersDelete hs name) other = headersGet hs other := by
  unfold headersGet headersDelete
  rw [find?_filter_of_imp]
  intro a ha
  have : a.1 = lowerName other := by simpa using ha
  simp [this, h]

theorem headersGet_set_self (hs : List (String × String)) (name value : String) :
    headersGet (headersSet hs name value) name = some value := by
  unfold headersSet
  have hnone : headersGet (headersDelete hs name) name = none :=
    headersGet_delete_self hs name
  unfold headersGet at hnone ⊢
  rw [List.find?_append]
  have : (headersDelete hs name).find? (fun p => p.1 == lowerName name) = none := by
    cases hfind : (headersDelete hs name).find? (fun p => p.1 == lowerName name)
    · rfl
    · simp [hfind] at hnone
  rw [this]
  simp [List.find?]

theorem headersGet_set_ne (hs : List (String × String)) (name other value : String)
    (h : lowerName other ≠ lowerName name) :
    headersGet (headersSet hs name value) other = headersGet hs other := by
  unfold headersSet
  have hdel := headersGet_delete_ne hs name other h
  unfold headersGet at hdel ⊢
  rw [List.find?_append]
  have hsing : List.find? (fun p => p.1 == lowerName other) [(lowerName name, value)] = none := by
    have hb : (lowerName name == lowerName other) = false := beq_eq_false_iff_ne.mpr (Ne.symm h)
    simp [List.find?, hb]
  rw [hsing]
  cases hfind : (headersDelete hs name).find? (fun p => p.1 == lowerName other) <;>
    simp [hfind] at hdel ⊢ <;> simp [hdel]

theorem forwardToTarget_fst (target : String) (headers : List (String × String))
    (outcome : FetchOutcome) (elapsed : Nat) :
    (forwardToTarget target headers outcome elapsed).1 = buildForwardHeaders headers := by
  cases outcome <;> rfl

/-- **C4.** For every forwarded delivery and every inbound header set, the
outbound header set never contains `host`, `cf-connecting-ip`, `cf-ray`,
`cf-visitor` or `cf-ipcountry`, and always contains `X-Forwarded-By` (the
fixed forwarder identity) and `X-Original-Host` set to the inbound `host`
value, or the empty string when the inbound request has no `host` header. -/
theorem forward_headers_scrub (target : String) (headers : List (String × String))
    (outcome : FetchOutcome) (elapsed : Nat) :
    headersGet (forwardToTarget target headers outcome elapsed).1 "host" = none ∧
    headersGet (forwardToTarget target headers outcome elapsed).1 "cf-connecting-ip" = none ∧
    headersGet (forwardToTarget target headers outcome elapsed).1 "cf-ray" = none ∧
    headersGet (forwardToTarget target headers outcome elapsed).1 "cf-visitor" = none ∧
    headersGet (forwardToTarget target headers outcome elapsed).1 "cf-ipcountry" = none ∧
    headersGet (forwardToTarget target headers outcome elapsed).1 "X-Forwarded-By" =
      some "webhook-forwarder" ∧
    headersGet (forwardToTarget target headers outcome elapsed).1 "X-Original-Host" =
      some ((headersGet (normalizeHeaders headers) "host").getD "") := by
  rw [forwardToTarget_fst]
  simp only [buildForwardHeaders]
  refine ⟨?_, ?_, ?_, ?_, ?_, ?_, ?_⟩
  · rw [headersGet_set_ne _ _ _ _ (by decide), headersGet_set_ne _ _ _ _ (by decide),
      headersGet_delete_ne _ _ _ (by decide), headersGet_delete_ne _ _ _ (by decide),
      headersGet_delete_ne _ _ _ (by decide), headersGet_delete_ne _ _ _ (by decide),
      headersGet_delete_self]
  · rw [headersGet_set_ne _ _ _ _ (by decide), headersGet_set_ne _ _ _ _ (by decide),
      headersGet_delete_ne _ _ _ (by decide), headersGet_delete_ne _ _ _ (by decide),
      headersGet_delete_ne _ _ _ (by decide), headersGet_delete_self]
  · rw [headersGet_set_ne _ _ _ _ (by decide), headersGet_set_ne _ _ _ _ (by decide),
      headersGet_delete_ne _ _ _ (by decide), headersGet_delete_ne _ _ _ (by decide),
      headersGet_delete_self]
  · rw [headersGet_set_ne _ _ _ _ (by decide), headersGet_set_ne _ _ _ _ (by decide),
      headersGet_delete_ne _ _ _ (by decide), headersGet_delete_self]
  · rw [headersGet_set_ne _ _ _ _ (by decide), headersGet_set_ne _ _ _ _ (by decide),
      headersGet_delete_self]
  · rw [headersGet_set_ne _ _ _ _ (by decide), headersGet_set_self]
  · rw [headersGet_set_self]

/-- **C6, counterexample to the claim as stated.**  A transport failure whose
thrown `Error` carries the empty message is recorded with `error = some ""`:
the error description string is present but not non-empty. -/
theorem forward_result_empty_error_cex :
    (forwardToTarget "https://x.test/hook" [] (.failure (some "")) 7).2.error = some "" ∧
    ¬ (∀ e, (forwardToTarget "https://x.test/hook" [] (.failure (some "")) 7).2.error =
          some e → e ≠ "") := by
  refine ⟨rfl, fun h => h "" rfl rfl⟩

/-- **C6 (amended).** For every single delivery: on a transport-level failure
the record has `success = false`, no status code, an error description string
(the thrown error's message, or `"Unknown error"` when the thrown value is
not an `Error`; possibly empty) and the elapsed duration; on any received
response the record has `success` true exactly when the status code is in
200–299, the numeric status code, its reason phrase and the elapsed
duration — transport errors and HTTP responses are distinguished exactly by
the absence or presence of a status code. -/
theorem forward_result_record_spec (target : String) (headers : List (String × String))
    (outcome : FetchOutcome) (elapsed : Nat) :
    (∀ msg, outcome = .failure msg →
        (forwardToTarget target headers outcome elapsed).2.success = false ∧
        (forwardToTarget target headers outcome elapsed).2.status = none ∧
        (forwardToTarget target headers outcome elapsed).2.error =
          some (msg.getD "Unknown error") ∧
        (forwardToTarget target headers outcome elapsed).2.duration = elapsed) ∧
    (∀ st stx, outcome = .response st stx →
        ((forwardToTarget target headers outcome elapsed).2.success = true ↔
          200 ≤ st ∧ st ≤ 299) ∧
        (forwardToTarget target headers outcome elapsed).2.status = some st ∧
        (forwardToTarget target headers outcome elapsed).2.statusText = some stx ∧
        (forwardToTarget target headers outcome elapsed).2.duration = elapsed) ∧
    ((forwardToTarget target headers outcome elapsed).2.status = none ↔
      ∃ msg, outcome = .failure msg) := by
  cases outcome <;> simp [forwardToTarget, responseOk]

/-- Witness for `forward_result_record_spec` at concrete deliveries. -/
theorem forward_result_record_spec_witness :
    (forwardToTarget "https://x.test/hook" [] (.failure (some "connect timeout")) 7).2.error =
      some "connect timeout" ∧
    (forwardToTarget "https://x.test/hook" [] (.response 503 "Service Unavailable") 4).2.status =
      some 503 :=
  ⟨((forward_result_record_spec "https://x.test/hook" [] (.failure (some "connect timeout")) 7).1
      (some "connect timeout") rfl).2.2.1,
   ((forward_result_record_spec "https://x.test/hook" [] (.response 503 "Service Unavailable") 4).2.1
      503 "Service Unavailable" rfl).2.1⟩

theorem stripOneTrailingSlash_concat (t : String) :
    stripOneTrailingSlash (t ++ "/") = t := by
  unfold stripOneTrailingSlash
  rw [show (t ++ "/").data = t.data ++ ['/'] from by rw [String.data_append]]
  rw [List.getLast?_concat]
  simp [List.dropLast_concat]

/-- **C5.** URL composition: with no sub-path the destination is used
unmodified; with a non-empty sub-path the composed URL is the destination
with exactly one trailing slash removed (if present) followed by the
sub-path, so a destination with and without a trailing slash compose to the
same URL with no double slash. -/
theorem compose_target_url_spec (target subPath : String) (h : subPath ≠ "") :
    composeTargetUrl target "" = target ∧
    composeTargetUrl target subPath = stripOneTrailingSlash target ++ subPath ∧
    composeTargetUrl (target ++ "/") subPath = target ++ subPath ∧
    (target.data.getLast? ≠ some '/' → composeTargetUrl target subPath = target ++ subPath) := by
  refine ⟨by simp [composeTargetUrl], by simp [composeTargetUrl, h], ?_, ?_⟩
  · simp [composeTargetUrl, h, stripOneTrailingSlash_concat]
  · intro h2
    simp [composeTargetUrl, h, stripOneTrailingSlash, h2]

/-- Witness for `compose_target_url_spec`: the spec's round-trip example. -/
theorem compose_target_url_spec_witness :
    composeTargetUrl "https://x.test/hook" "/extra" = "https://x.test/hook/extra" ∧
    composeTargetUrl "https://x.test/hook/" "/extra" = "https://x.test/hook/extra" := by
  have h1 := (compose_target_url_spec "https://x.test/hook" "/extra" (by decide)).2.2.2 (by decide)
  have h2 := (compose_target_url_spec "https://x.test/hook" "/extra" (by decide)).2.2.1
  constructor
  · exact h1.trans (by decide)
  · have e : ("https://x.test/hook" : String) ++ "/" = "https://x.test/hook/" := by decide
    rw [e] at h2
    exact h2.trans (by decide)

/-- **C7.** The JSON-blob config resolver yields an empty routing table on
unparseable input and on any parsed top level that is not a mapping, and (as
a total function) never raises the failure to the caller. -/
theorem parseConfigB_malformed_empty :
    parseConfigB none = [] ∧
    ∀ j : Json, j.isObj = false → parseConfigB (some j) = [] := by
  refine ⟨rfl, ?_⟩
  intro j hj
  cases j <;> simp_all [parseConfigB, Json.isObj]

/-- Witness for `parseConfigB_malformed_empty`: a top-level array. -/
theorem parseConfigB_malformed_empty_witness :
    parseConfigB (some (.arr [.str "https://x.test/hook"])) = [] :=
  parseConfigB_malformed_empty.2 (.arr [.str "https://x.test/hook"]) rfl

/-- **C8, counterexample to the claim as stated.**  A key bearing the
`FORWARD_` marker whose value is the empty string yields *no* routing-table
entry (the code requires `value.length > 0`), while the claim demands exactly
one entry per prefixed key — here `("x", [])`. -/
theorem parseConfigA_empty_value_cex :
    parseConfigA [("FORWARD_x", .str "")] = [] ∧
    parseConfigA [("FORWARD_x", .str "")] ≠ [("x", ([] : List String))] := by
  decide

/-- **C8 (amended).** The per-key resolver produces exactly one routing-table
entry per key bearing the `FORWARD_` marker *whose value is a non-empty
string*: the identifier is the key's remainder after the marker and the
destination set is the value split on commas, trimmed, empties dropped; keys
without the marker, keys with nothing after the marker, keys whose value is
the empty string, and keys whose value is not a string all yield no entry. -/
theorem parseConfigA_entry_spec (env : List (String × EnvVal)) :
    parseConfigA env = env.filterMap forwardEntry ∧
    (∀ id value, id ≠ "" → value ≠ "" →
        forwardEntry ("FORWARD_" ++ id, .str value) = some (id, splitTargets value)) ∧
    (∀ key value, "FORWARD_".data.isPrefixOf key.data = false →
        forwardEntry (key, value) = none) ∧
    (∀ value, forwardEntry ("FORWARD_", value) = none) ∧
    (∀ key, forwardEntry (key, .str "") = none) ∧
    (∀ key, forwardEntry (key, .other) = none) := by
  refine ⟨rfl, ?_, ?_, ?_, ?_, fun key => rfl⟩
  · intro id value hid hval
    have hpre : "FORWARD_".data.isPrefixOf ("FORWARD_" ++ id).data = true := by
      rw [String.data_append]
      exact List.isPrefixOf_iff_prefix.mpr (List.prefix_append _ _)
    have hdrop : ("FORWARD_" ++ id).data.drop "FORWARD_".data.length = id.data := by
      rw [String.data_append]
      exact List.drop_left _ _
    have hval' : (value != "") = true := bne_iff_ne.mpr hval
    have hid' : (id != "") = true := bne_iff_ne.mpr hid
    simp only [forwardEntry, hpre, hval', Bool.and_self, if_true, hdrop]
    have heta : (⟨id.data⟩ : String) = id := rfl
    rw [heta]
    simp [hid']
  · intro key value h3
    cases value with
    | str v => simp [forwardEntry, h3]
    | other => rfl
  · intro value
    cases value with
    | other => rfl
    | str v =>
      simp only [forwardEntry]
      have h1 : "FORWARD_".data.isPrefixOf ("FORWARD_" : String).data = true := by decide
      rw [h1, Bool.true_and]
      have h2 : ((⟨("FORWARD_" : String).data.drop ("FORWARD_" : String).data.length⟩ : String)
          != "") = false := by decide
      rw [h2]
      split <;> rfl
  · intro key
    simp only [forwardEntry]
    have h0 : (("" : String) != "") = false := by decide
    rw [h0, Bool.and_false]
    simp

/-- Witness for `parseConfigA_entry_spec` at a concrete env entry. -/
theorem parseConfigA_entry_spec_witness :
    forwardEntry ("FORWARD_" ++ "my-svc", .str " https://a.test/h1 ,https://b.test/h2") =
      some ("my-svc", splitTargets " https://a.test/h1 ,https://b.test/h2") :=
  (parseConfigA_entry_spec []).2.1 "my-svc" " https://a.test/h1 ,https://b.test/h2"
    (by decide) (by decide)

/-! ### Plumbing lemmas about the handler's routing -/

theorem extractIdFromPath_pre {p : String} {x : String × String}
    (h : extractIdFromPath p = some x) :
    "/webhook/".data.isPrefixOf p.data = true := by
  by_cases hp : "/webhook/".data.isPrefixOf p.data = true
  · exact hp
  · simp only [extractIdFromPath] at h
    rw [if_neg hp] at h
    cases h

theorem fetchModel_webhook_branch (pathname method : String)
    (env : List (String × EnvVal)) (headers : List (String × String))
    (outcome : String → FetchOutcome) (elapsed : String → Nat)
    {id subPath : String}
    (hex : extractIdFromPath pathname = some (id, subPath)) :
    fetchModel pathname method env headers outcome elapsed =
      match lookupTable (parseConfigA env) id with
      | none =>
          { status := 404, code := -1, lookedUp := true, calls := [], forwardResp := none }
      | some targets =>
          if targets.isEmpty then
            { status := 404, code := -1, lookedUp := true, calls := [], forwardResp := none }
          else dispatchToTargets id subPath targets headers outcome elapsed := by
  have hp := extractIdFromPath_pre hex
  have h1 : pathname ≠ "/health" := by rintro rfl; revert hp; decide
  have h2 : pathname ≠ "/" := by rintro rfl; revert hp; decide
  have h3 : pathname ≠ "/config" := by rintro rfl; revert hp; decide
  have c1 : (pathname == "/health" || pathname == "/") = false := by simp [h1, h2]
  have c2 : (pathname == "/config" && method == "GET") = false := by simp [h3]
  unfold fetchModel
  rw [c1, if_neg Bool.false_ne_true, c2, if_neg Bool.false_ne_true, hp, if_pos rfl, hex]

/-- **C3.** For every inbound request to `/webhook/:id` whose identifier is
absent from the routing table or maps to an empty destination set, the
handler responds 404 immediately, invokes `forwardToTarget` zero times, and
builds no `ForwardResponse`. -/
theorem unknown_id_no_calls (pathname method : String)
    (env : List (String × EnvVal)) (headers : List (String × String))
    (outcome : String → FetchOutcome) (elapsed : String → Nat)
    (id subPath : String)
    (hex : extractIdFromPath pathname = some (id, subPath))
    (hlk : lookupTable (parseConfigA env) id = none ∨
      lookupTable (parseConfigA env) id = some []) :
    (fetchModel pathname method env headers outcome elapsed).status = 404 ∧
    (fetchModel pathname method env headers outcome elapsed).calls = [] ∧
    (fetchModel pathname method env headers outcome elapsed).forwardResp = none := by
  rw [fetchModel_webhook_branch pathname method env headers outcome elapsed hex]
  rcases hlk with hlk | hlk <;> rw [hlk] <;> exact ⟨rfl, rfl, rfl⟩

/-- Witness for `unknown_id_no_calls`: an identifier not in the table. -/
theorem unknown_id_no_calls_witness :
    (fetchModel "/webhook/nope" "POST" [("FORWARD_a", .str "https://x.test/hook")] []
      (fun _ => .response 200 "OK") (fun _ => 1)).status = 404 ∧
    (fetchModel "/webhook/nope" "POST" [("FORWARD_a", .str "https://x.test/hook")] []
      (fun _ => .response 200 "OK") (fun _ => 1)).calls = [] ∧
    (fetchModel "/webhook/nope" "POST" [("FORWARD_a", .str "https://x.test/hook")] []
      (fun _ => .response 200 "OK") (fun _ => 1)).forwardResp = none :=
  unknown_id_no_calls "/webhook/nope" "POST" [("FORWARD_a", .str "https://x.test/hook")] []
    (fun _ => .response 200 "OK") (fun _ => 1) "nope" "" (by decide) (Or.inl (by decide))

/-- **C9.** A request to `/webhook` with no identifier segment — the bare
path, or `/webhook/` with nothing after the slash — gets status 400, with no
routing-table lookup and no outbound call. -/
theorem bare_webhook_400 (method : String) (env : List (String × EnvVal))
    (headers : List (String × String)) (outcome : String → FetchOutcome)
    (elapsed : String → Nat) :
    ((fetchModel "/webhook" method env headers outcome elapsed).status = 400 ∧
     (fetchModel "/webhook" method env headers outcome elapsed).lookedUp = false ∧
     (fetchModel "/webhook" method env headers outcome elapsed).calls = []) ∧
    ((fetchModel "/webhook/" method env headers outcome elapsed).status = 400 ∧
     (fetchModel "/webhook/" method env headers outcome elapsed).lookedUp = false ∧
     (fetchModel "/webhook/" method env headers outcome elapsed).calls = []) :=
  ⟨⟨rfl, rfl, rfl⟩, ⟨rfl, rfl, rfl⟩⟩

theorem fetchModel_dispatch (pathname method : String)
    (env : List (String × EnvVal)) (headers : List (String × String))
    (outcome : String → FetchOutcome) (elapsed : String → Nat)
    {id subPath : String} {targets : List String}
    (hex : extractIdFromPath pathname = some (id, subPath))
    (hlk : lookupTable (parseConfigA env) id = some targets)
    (hne : targets ≠ []) :
    fetchModel pathname method env headers outcome elapsed =
      dispatchToTargets id subPath targets headers outcome elapsed := by
  rw [fetchModel_webhook_branch pathname method env headers outcome elapsed hex, hlk]
  have : targets.isEmpty = false := by
    cases htv : targets.isEmpty
    · rfl
    · exact absurd (List.isEmpty_iff.mp htv) hne
  simp only [this, Bool.false_eq_true, if_false]

theorem forwardToTarget_snd_target (u : String) (headers : List (String × String))
    (outcome : FetchOutcome) (elapsed : Nat) :
    (forwardToTarget u headers outcome elapsed).2.target = u := by
  cases outcome <;> rfl

theorem dispatchToTargets_spec (id subPath : String) (targets : List String)
    (headers : List (String × String)) (outcome : String → FetchOutcome)
    (elapsed : String → Nat) :
    ∃ resp, (dispatchToTargets id subPath targets headers outcome elapsed).forwardResp =
        some resp ∧
      resp.results.length = targets.length ∧
      resp.totalTargets = targets.length ∧
      resp.successful = (resp.results.filter (fun r => r.success)).length ∧
      resp.failed = (resp.results.filter (fun r => !r.success)).length ∧
      resp.successful + resp.failed = targets.length ∧
      resp.results.map (fun r => r.target) =
        targets.map (fun t => composeTargetUrl t subPath) ∧
      resp.code = (if 0 < resp.successful then 0 else -1) ∧
      (dispatchToTargets id subPath targets headers outcome elapsed).status =
        overallStatus resp.successful resp.failed ∧
      (dispatchToTargets id subPath targets headers outcome elapsed).code = resp.code := by
  refine ⟨_, rfl, ?_, rfl, rfl, rfl, ?_, ?_, rfl, rfl, rfl⟩
  · exact List.length_map _ _
  · exact ((List.length_eq_length_filter_add _).symm).trans (List.length_map _ _)
  · rw [List.map_map]
    refine List.map_congr_left ?_
    intro t _
    simp [Function.comp, forwardToTarget_snd_target]

/-- **C1.** For every dispatched request whose identifier resolves to a
non-empty destination set, the outer HTTP status is exactly 200 when every
forward attempt record has `success = true`, 502 when the successful count is
0 and the failed count is positive, and 207 when both counts are positive. -/
theorem dispatch_status_mapping (pathname method : String)
    (env : List (String × EnvVal)) (headers : List (String × String))
    (outcome : String → FetchOutcome) (elapsed : String → Nat)
    (id subPath : String) (targets : List String)
    (hex : extractIdFromPath pathname = some (id, subPath))
    (hlk : lookupTable (parseConfigA env) id = some targets)
    (hne : targets ≠ []) :
    ∃ resp, (fetchModel pathname method env headers outcome elapsed).forwardResp =
        some resp ∧
      ((∀ r ∈ resp.results, r.success = true) →
        (fetchModel pathname method env headers outcome elapsed).status = 200) ∧
      (resp.successful = 0 → 0 < resp.failed →
        (fetchModel pathname method env headers outcome elapsed).status = 502) ∧
      (0 < resp.successful → 0 < resp.failed →
        (fetchModel pathname method env headers outcome elapsed).status = 207) := by
  rw [fetchModel_dispatch pathname method env headers outcome elapsed hex hlk hne]
  obtain ⟨resp, hr, -, -, -, hfail, -, -, -, hstat, -⟩ :=
    dispatchToTargets_spec id subPath targets headers outcome elapsed
  refine ⟨resp, hr, ?_, ?_, ?_⟩
  · intro hall
    have hf0 : resp.failed = 0 := by
      rw [hfail, List.length_eq_zero, List.filter_eq_nil_iff]
      intro a ha
      simp [hall a ha]
    rw [hstat, hf0]
    simp [overallStatus]
  · intro h0 hf
    rw [hstat]
    simp [overallStatus, h0, hf]
  · intro hs hf
    have hs0 : (resp.successful == 0) = false := by
      simp [Nat.pos_iff_ne_zero.mp hs]
    rw [hstat]
    simp [overallStatus, hs0, hf]

/-- Witness for `dispatch_status_mapping` on an all-succeeding fan-out. -/
theorem dispatch_status_mapping_witness :
    ∃ resp, (fetchModel "/webhook/a" "POST" [("FORWARD_a", .str "https://x.test/hook")] []
        (fun _ => .response 200 "OK") (fun _ => 1)).forwardResp = some resp ∧
      ((∀ r ∈ resp.results, r.success = true) →
        (fetchModel "/webhook/a" "POST" [("FORWARD_a", .str "https://x.test/hook")] []
          (fun _ => .response 200 "OK") (fun _ => 1)).status = 200) ∧
      (resp.successful = 0 → 0 < resp.failed →
        (fetchModel "/webhook/a" "POST" [("FORWARD_a", .str "https://x.test/hook")] []
          (fun _ => .response 200 "OK") (fun _ => 1)).status = 502) ∧
      (0 < resp.successful → 0 < resp.failed →
        (fetchModel "/webhook/a" "POST" [("FORWARD_a", .str "https://x.test/hook")] []
          (fun _ => .response 200 "OK") (fun _ => 1)).status = 207) :=
  dispatch_status_mapping "/webhook/a" "POST" [("FORWARD_a", .str "https://x.test/hook")] []
    (fun _ => .response 200 "OK") (fun _ => 1) "a" "" ["https://x.test/hook"]
    (by decide) (by decide) (by decide)

/-- **C2.** For every dispatched request whose identifier resolves to N ≥ 1
destinations, the aggregate has exactly one forward attempt record per
destination: `results` has length N in destination-set order (the i-th
record's target is the i-th destination composed with the sub-path),
`totalTargets` = N, and `successful + failed` = N. -/
theorem dispatch_aggregate_shape (pathname method : String)
    (env : List (String × EnvVal)) (headers : List (String × String))
    (outcome : String → FetchOutcome) (elapsed : String → Nat)
    (id subPath : String) (targets : List String)
    (hex : extractIdFromPath pathname = some (id, subPath))
    (hlk : lookupTable (parseConfigA env) id = some targets)
    (hne : targets ≠ []) :
    ∃ resp, (fetchModel pathname method env headers outcome elapsed).forwardResp =
        some resp ∧
      resp.results.length = targets.length ∧
      resp.totalTargets = targets.length ∧
      resp.successful + resp.failed = targets.length ∧
      resp.results.map (fun r => r.target) =
        targets.map (fun t => composeTargetUrl t subPath) := by
  rw [fetchModel_dispatch pathname method env headers outcome elapsed hex hlk hne]
  obtain ⟨resp, hr, hlen, htot, -, -, hsum, hmap, -, -, -⟩ :=
    dispatchToTargets_spec id subPath targets headers outcome elapsed
  exact ⟨resp, hr, hlen, htot, hsum, hmap⟩

/-- Witness for `dispatch_aggregate_shape` on a two-destination fan-out. -/
theorem dispatch_aggregate_shape_witness :
    ∃ resp, (fetchModel "/webhook/a/x" "POST"
        [("FORWARD_a", .str "https://x.test/hook,https://y.test/")] []
        (fun _ => .response 200 "OK") (fun _ => 2)).forwardResp = some resp ∧
      resp.results.length = (["https://x.test/hook", "https://y.test/"] : List String).length ∧
      resp.totalTargets = (["https://x.test/hook", "https://y.test/"] : List String).length ∧
      resp.successful + resp.failed =
        (["https://x.test/hook", "https://y.test/"] : List String).length ∧
      resp.results.map (fun r => r.target) =
        (["https://x.test/hook", "https://y.test/"] : List String).map
          (fun t => composeTargetUrl t "/x") :=
  dispatch_aggregate_shape "/webhook/a/x" "POST"
    [("FORWARD_a", .str "https://x.test/hook,https://y.test/")] []
    (fun _ => .response 200 "OK") (fun _ => 2) "a" "/x"
    ["https://x.test/hook", "https://y.test/"] (by decide) (by decide) (by decide)

/-- **C10.** The JSON body's `code` field is 0 exactly when the successful
count is positive (including mixed 207 outcomes) and -1 when it is 0, for
every dispatched request; and every error response of status 400, 404 or 502
carries `code = -1`. -/
theorem response_code_spec (pathname method : String) (env : List (String × EnvVal))
    (headers : List (String × String)) (outcome : String → FetchOutcome)
    (elapsed : String → Nat) :
    (∀ resp, (fetchModel pathname method env headers outcome elapsed).forwardResp =
        some resp →
        resp.code = (if 0 < resp.successful then 0 else -1) ∧
        (fetchModel pathname method env headers outcome elapsed).code = resp.code) ∧
    ((fetchModel pathname method env headers outcome elapsed).status = 400 ∨
     (fetchModel pathname method env headers outcome elapsed).status = 404 ∨
     (fetchModel pathname method env headers outcome elapsed).status = 502 →
      (fetchModel pathname method env headers outcome elapsed).code = -1) := by
  unfold fetchModel
  split
  · simp
  · split
    · split
      · simp
      · simp
    · split
      · split
        · simp
        · split
          · simp
          · split
            · simp
            · simp only [dispatchToTargets]
              constructor
              · intro resp h
                simp only [Option.some.injEq] at h
                subst h
                exact ⟨rfl, rfl⟩
              · intro h
                simp only [overallStatus] at h
                split at h
                · rename_i hc
                  simp only [Bool.and_eq_true] at hc
                  have hs0 := beq_iff_eq.mp hc.2
                  simp [hs0]
                · split at h
                  · exact absurd h (by decide)
                  · exact absurd h (by decide)
      · split
        · simp
        · simp

/-- Witness for `response_code_spec`: an all-failed fan-out (status 502)
carries `code = -1`. -/
theorem response_code_spec_witness :
    (fetchModel "/webhook/a" "POST" [("FORWARD_a", .str "https://x.test/hook")] []
      (fun _ => .failure (some "connection refused")) (fun _ => 1)).code = -1 :=
  (response_code_spec "/webhook/a" "POST" [("FORWARD_a", .str "https://x.test/hook")] []
    (fun _ => .failure (some "connection refused")) (fun _ => 1)).2
    (Or.inr (Or.inr (by decide)))

end WebhookForwarder
